import Mathlib

/-!
# assisted-installer-agent: the dependency layer and the free_addresses entry point

A shallow embedding of `src/util/dependencies.go` and
`src/free_addresses/main/main.go`.

* A Go `error` is an `Option GoError` (`none` is the nil error), a Go slice is a
  `Slice` (`Slice.nil` is the nil slice, `Slice.items xs` a non-nil one), a Go
  pointer that may be nil is an `Option`.
* Everything the layer asks of the operating system, the network stack or the
  `ghw` inventory library is answered by an `OS` record of oracles; every such
  question is written to the run's `calls` log, in program order.
* A method of `*Dependencies` yields a `Run`: what it returned (or that it
  panicked), the calls it made, and the receiver as the call leaves it.
-/

set_option autoImplicit false

/-! ## Go values -/

/-- A non-nil Go `error` value. -/
structure GoError where
  msg : String
  deriving DecidableEq, Repr

/-- A Go slice: the nil slice, or a non-nil slice holding `xs`. -/
inductive Slice (α : Type) where
  | nil
  | items (xs : List α)
  deriving DecidableEq, Repr

namespace Slice

variable {α : Type}

/-- The elements a `for ... range` loop visits, in order. -/
def toList : Slice α → List α
  | nil => []
  | items xs => xs

/-- Go `len`. -/
def len (s : Slice α) : Nat := s.toList.length

/-- Go `s == nil`. -/
def isNil : Slice α → Bool
  | nil => true
  | items _ => false

/-- Go `append(s, x)`: the result is never nil. -/
def append (s : Slice α) (x : α) : Slice α := items (s.toList ++ [x])

end Slice

/-- How a Go call ends: it returns a value, or it panics. -/
inductive Outcome (α : Type) where
  | ret (value : α)
  | panic (msg : String)
  deriving DecidableEq, Repr

/-- The runtime's message for a read through a nil pointer. -/
def nilDereference : String :=
  "runtime error: invalid memory address or nil pointer dereference"

/-! ## Types of the packages the layer imports -/

namespace config

/-- The `config.DryRunConfig` fields read by the layer. -/
structure DryRunConfig where
  DryRunEnabled : Bool
  ForcedHostname : String
  deriving DecidableEq, Repr

end config

namespace net

/-- A `net.Interface` descriptor. -/
structure Interface where
  Index : Int
  MTU : Int
  Name : String
  HardwareAddr : List Nat
  Flags : Nat
  deriving DecidableEq, Repr

end net

namespace os

/-- An `os.FileInfo` value (non-nil). -/
structure FileInfo where
  Name : String
  Size : Int
  IsDir : Bool
  deriving DecidableEq, Repr

/-- An `os.DirEntry` value as `os.ReadDir` lists it. -/
structure DirEntry where
  Name : String
  IsDir : Bool
  deriving DecidableEq, Repr

/-- The two ways `DirEntry.Info()` ends: with the file info, or with an error. -/
inductive InfoLookup where
  | found (fi : FileInfo)
  | failed (err : GoError)
  deriving DecidableEq, Repr

/-- The first value returned by `entry.Info()`: nil when the lookup failed. -/
def InfoLookup.info : InfoLookup → Option FileInfo
  | found fi => some fi
  | failed _ => none

end os

namespace ghw

/-- A `ghw.WithOption`: the chroot it names, if any, and its other settings. -/
structure WithOption where
  Chroot : Option String
  others : List String
  deriving DecidableEq, Repr

/-- The option built by `ghw.WithChroot(dir)`. -/
def WithChroot (dir : String) : WithOption := { Chroot := some dir, others := [] }

/-- The chroot the inventory backend works under for an option list: the one
named by the last option that names any; `none` when no option names one and the
backend falls back to its own default root. -/
def chrootInEffect : List WithOption → Option String
  | [] => none
  | o :: rest =>
    match chrootInEffect rest with
    | some r => some r
    | none => o.Chroot

/-- What the inventory backend reports for one domain. -/
structure Info where
  domain : String
  descr : String
  deriving DecidableEq, Repr

end ghw

namespace util

open config

/-! ## The operating system as seen by the layer -/

/-- One question put to the OS, the network stack or the inventory backend. -/
inductive Call where
  | execute (command : String) (args : List String)
  | executePrivileged (command : String) (args : List String)
  | osReadFile (fname : String)
  | osStat (fname : String)
  | osHostname
  | netInterfaces
  | osReadDir (dirname : String)
  | entryInfo (entry : os.DirEntry)
  | filepathAbs (path : String)
  | filepathEvalSymlinks (path : String)
  | ghwBlock (opts : List ghw.WithOption)
  | ghwProduct (opts : List ghw.WithOption)
  | ghwGPU (opts : List ghw.WithOption)
  | ghwMemory (opts : List ghw.WithOption)
  | ghwChassis (opts : List ghw.WithOption)
  | ghwPCI (opts : List ghw.WithOption)
  deriving DecidableEq, Repr

/-- The option list a call hands to the inventory backend (`none` for a call that
is not an inventory query). -/
def Call.ghwOpts : Call → Option (List ghw.WithOption)
  | .ghwBlock opts => some opts
  | .ghwProduct opts => some opts
  | .ghwGPU opts => some opts
  | .ghwMemory opts => some opts
  | .ghwChassis opts => some opts
  | .ghwPCI opts => some opts
  | _ => none

/-- The state of the machine at call time: the answer to every question the
layer can ask. Each field is the pair of values the Go function returns. -/
structure OS where
  execute : String → List String → String × String × Int
  executePrivileged : String → List String → String × String × Int
  readFile : String → Slice Nat × Option GoError
  stat : String → Option os.FileInfo × Option GoError
  hostname : String × Option GoError
  interfaces : Slice net.Interface × Option GoError
  readDir : String → Slice os.DirEntry × Option GoError
  entryInfo : os.DirEntry → os.InfoLookup
  abs : String → String × Option GoError
  evalSymlinks : String → String × Option GoError
  ghwBlock : List ghw.WithOption → Option ghw.Info × Option GoError
  ghwProduct : List ghw.WithOption → Option ghw.Info × Option GoError
  ghwGPU : List ghw.WithOption → Option ghw.Info × Option GoError
  ghwMemory : List ghw.WithOption → Option ghw.Info × Option GoError
  ghwChassis : List ghw.WithOption → Option ghw.Info × Option GoError
  ghwPCI : List ghw.WithOption → Option ghw.Info × Option GoError

/-! ## `dependencies.go` -/

/-- The embedded `NetlinkRouteFinder`; the layer stores its zero value. -/
structure NetlinkRouteFinder where
  deriving DecidableEq, Repr

/-- The struct `Dependencies`; `dryRunConfig` is a pointer and may be nil. -/
structure Dependencies where
  NetlinkRouteFinder : NetlinkRouteFinder := {}
  GhwChrootRoot : String
  dryRunConfig : Option DryRunConfig
  deriving DecidableEq, Repr

/-- The wrapper `NetworkInterface` built by `Interfaces`: the descriptor and the
layer it came from. -/
structure NetworkInterface where
  netInterface : net.Interface
  dependencies : Dependencies
  deriving DecidableEq, Repr

/-- One run of a method of `*Dependencies`. -/
structure Run (α : Type) where
  outcome : Outcome α
  calls : List Call
  self : Dependencies
  deriving DecidableEq, Repr

/-- `func NewDependencies(dryRunConfig, ghwChrootRoot)`: a struct literal. -/
def NewDependencies (dryRunConfig : Option DryRunConfig) (ghwChrootRoot : String) :
    Dependencies :=
  { GhwChrootRoot := ghwChrootRoot, dryRunConfig := dryRunConfig }

/-- `func (d *Dependencies) GetGhwChrootRoot() string`. -/
def GetGhwChrootRoot (d : Dependencies) (_sys : OS) : Run String :=
  { outcome := .ret d.GhwChrootRoot, calls := [], self := d }

/-- `func (d *Dependencies) Execute(command, args...)`. -/
def Execute (d : Dependencies) (command : String) (args : List String) (sys : OS) :
    Run (String × String × Int) :=
  { outcome := .ret (sys.execute command args), calls := [.execute command args], self := d }

/-- `func (d *Dependencies) ExecutePrivileged(command, args...)`. -/
def ExecutePrivileged (d : Dependencies) (command : String) (args : List String) (sys : OS) :
    Run (String × String × Int) :=
  { outcome := .ret (sys.executePrivileged command args),
    calls := [.executePrivileged command args], self := d }

/-- `func (d *Dependencies) ReadFile(fname)`. -/
def ReadFile (d : Dependencies) (fname : String) (sys : OS) : Run (Slice Nat × Option GoError) :=
  { outcome := .ret (sys.readFile fname), calls := [.osReadFile fname], self := d }

/-- `func (d *Dependencies) Stat(fname)`. -/
def Stat (d : Dependencies) (fname : String) (sys : OS) :
    Run (Option os.FileInfo × Option GoError) :=
  { outcome := .ret (sys.stat fname), calls := [.osStat fname], self := d }

/-- `func (d *Dependencies) Hostname()`: reading `d.dryRunConfig.DryRunEnabled`
through a nil `dryRunConfig` panics. -/
def Hostname (d : Dependencies) (sys : OS) : Run (String × Option GoError) :=
  match d.dryRunConfig with
  | none => { outcome := .panic nilDereference, calls := [], self := d }
  | some cfg =>
    if cfg.DryRunEnabled then
      { outcome := .ret (cfg.ForcedHostname, none), calls := [], self := d }
    else
      { outcome := .ret sys.hostname, calls := [.osHostname], self := d }

/-- `func (d *Dependencies) Interfaces()`. -/
def Interfaces (d : Dependencies) (sys : OS) : Run (Slice NetworkInterface × Option GoError) :=
  match sys.interfaces with
  | (_, some err) => { outcome := .ret (Slice.nil, some err), calls := [.netInterfaces], self := d }
  | (ins, none) =>
    let ret := ins.toList.foldl
      (fun ret i => ret.append { netInterface := i, dependencies := d }) (Slice.items [])
    { outcome := .ret (ret, none), calls := [.netInterfaces], self := d }

/-- `func (d *Dependencies) Block(opts...)`. -/
def Block (d : Dependencies) (opts : List ghw.WithOption) (sys : OS) :
    Run (Option ghw.Info × Option GoError) :=
  { outcome := .ret (sys.ghwBlock opts), calls := [.ghwBlock opts], self := d }

/-- `func (d *Dependencies) Product(opts...)`. -/
def Product (d : Dependencies) (opts : List ghw.WithOption) (sys : OS) :
    Run (Option ghw.Info × Option GoError) :=
  { outcome := .ret (sys.ghwProduct opts), calls := [.ghwProduct opts], self := d }

/-- The state of the loop in `ReadDir`: `filesInfo` and the lookups made so far. -/
structure ReadDirLoop where
  filesInfo : Slice (Option os.FileInfo)
  calls : List Call

/-- One turn of the loop in `ReadDir`: `info, _ := entry.Info()` then the append. -/
def ReadDirLoop.step (sys : OS) (st : ReadDirLoop) (entry : os.DirEntry) : ReadDirLoop :=
  { filesInfo := st.filesInfo.append (sys.entryInfo entry).info,
    calls := st.calls ++ [.entryInfo entry] }

/-- `func (d *Dependencies) ReadDir(dirname)`. -/
def ReadDir (d : Dependencies) (dirname : String) (sys : OS) :
    Run (Slice (Option os.FileInfo) × Option GoError) :=
  match sys.readDir dirname with
  | (Slice.items dirEntry, err) =>
    let st := dirEntry.foldl (ReadDirLoop.step sys)
      { filesInfo := Slice.nil, calls := [.osReadDir dirname] }
    { outcome := .ret (st.filesInfo, err), calls := st.calls, self := d }
  | (Slice.nil, err) =>
    { outcome := .ret (Slice.nil, err), calls := [.osReadDir dirname], self := d }

/-- `func (d *Dependencies) Abs(path)`. -/
def Abs (d : Dependencies) (path : String) (sys : OS) : Run (String × Option GoError) :=
  { outcome := .ret (sys.abs path), calls := [.filepathAbs path], self := d }

/-- `func (d *Dependencies) EvalSymlinks(path)`. -/
def EvalSymlinks (d : Dependencies) (path : String) (sys : OS) : Run (String × Option GoError) :=
  { outcome := .ret (sys.evalSymlinks path), calls := [.filepathEvalSymlinks path], self := d }

/-- `func (d *Dependencies) GPU(opts...)`. -/
def GPU (d : Dependencies) (opts : List ghw.WithOption) (sys : OS) :
    Run (Option ghw.Info × Option GoError) :=
  { outcome := .ret (sys.ghwGPU opts), calls := [.ghwGPU opts], self := d }

/-- `func (d *Dependencies) Memory(opts...)`. -/
def Memory (d : Dependencies) (opts : List ghw.WithOption) (sys : OS) :
    Run (Option ghw.Info × Option GoError) :=
  { outcome := .ret (sys.ghwMemory opts), calls := [.ghwMemory opts], self := d }

/-- `func (d *Dependencies) Chassis(opts...)`. -/
def Chassis (d : Dependencies) (opts : List ghw.WithOption) (sys : OS) :
    Run (Option ghw.Info × Option GoError) :=
  { outcome := .ret (sys.ghwChassis opts), calls := [.ghwChassis opts], self := d }

/-- `func (d *Dependencies) PCI(opts...)`. -/
def PCI (d : Dependencies) (opts : List ghw.WithOption) (sys : OS) :
    Run (Option ghw.Info × Option GoError) :=
  { outcome := .ret (sys.ghwPCI opts), calls := [.ghwPCI opts], self := d }

end util

namespace FreeAddresses

/-! ## `free_addresses/main/main.go` -/

/-- The fields of the value `config.ProcessSubprocessArgs` returns that `main` uses. -/
structure SubprocessConfig where
  TextLogging : Bool
  JournalLogging : Bool
  StdoutLogging : Bool
  ForcedHostID : String
  DryRunConfig : config.DryRunConfig
  deriving DecidableEq, Repr

/-- One invocation of the process, as `main` finds it. -/
structure Process where
  /-- Go `os.Args`, the program name first -/
  osArgs : List String
  /-- Go `flag.Args()`: the positional arguments left once the flags are parsed -/
  flagArgs : List String
  /-- The value `config.ProcessSubprocessArgs(config.DefaultLoggingConfig)` returns -/
  subprocessConfig : SubprocessConfig
  /-- The probe `free_addresses.GetFreeAddresses`, by the argument it is given -/
  GetFreeAddresses : String → String × String × Int

/-- What the process does that can be seen from outside, in program order. -/
inductive Event where
  | processSubprocessArgs
  | processDryRunArgs
  | setLogging (name : String) (textLogging journalLogging stdoutLogging : Bool)
      (forcedHostID : String)
  | logWarnf (msg : String)
  | getFreeAddresses (arg : String)
  | writeStdout (s : String)
  | writeStderr (s : String)
  deriving DecidableEq, Repr

/-- One run of the process: its events and the argument of its `os.Exit`. -/
structure ProcessRun where
  events : List Event
  exitCode : Int
  deriving DecidableEq, Repr

/-- Go `flag.NArg()`. -/
def NArg (p : Process) : Nat := p.flagArgs.length

/-- Go `flag.Arg(i)`: the empty string when there is no such argument. -/
def Arg (p : Process) (i : Nat) : String := p.flagArgs.getD i ""

/-- The three configuration calls that open `main`. -/
def setup (p : Process) : List Event :=
  [ .processSubprocessArgs, .processDryRunArgs,
    .setLogging "free_addresses" p.subprocessConfig.TextLogging
      p.subprocessConfig.JournalLogging p.subprocessConfig.StdoutLogging
      p.subprocessConfig.ForcedHostID ]

/-- The text of the usage warning, `%d` being `len(os.Args)-1`. -/
def usageWarning (p : Process) : String :=
  "Expecting exactly single argument to free_addresses. Received " ++
    toString ((p.osArgs.length : Int) - 1)

/-- `func main()`. -/
def main (p : Process) : ProcessRun :=
  if NArg p ≠ 1 then
    { events := setup p ++ [.logWarnf (usageWarning p)], exitCode := -1 }
  else
    match p.GetFreeAddresses (Arg p 0) with
    | (stdout, stderr, exitCode) =>
      { events := setup p ++
          [.getFreeAddresses (Arg p 0), .writeStdout stdout, .writeStderr stderr],
        exitCode := exitCode }

/-- The arguments the probe was invoked with, one per invocation. -/
def probeCalls : List Event → List String
  | [] => []
  | .getFreeAddresses a :: rest => a :: probeCalls rest
  | _ :: rest => probeCalls rest

/-- The strings written to standard output, one per write. -/
def stdoutWrites : List Event → List String
  | [] => []
  | .writeStdout s :: rest => s :: stdoutWrites rest
  | _ :: rest => stdoutWrites rest

/-- The strings written to standard error, one per write. -/
def stderrWrites : List Event → List String
  | [] => []
  | .writeStderr s :: rest => s :: stderrWrites rest
  | _ :: rest => stderrWrites rest

/-- The warnings handed to the logger. -/
def warnings : List Event → List String
  | [] => []
  | .logWarnf m :: rest => m :: warnings rest
  | _ :: rest => warnings rest

/-- Everything the process wrote to standard output. -/
def stdoutOf (r : ProcessRun) : String := String.join (stdoutWrites r.events)

/-- Everything the process wrote to standard error. -/
def stderrOf (r : ProcessRun) : String := String.join (stderrWrites r.events)

/-- A probe that finds `1.2.3.4` free in `192.168.1.0/24` and rejects anything else. -/
def sampleProbe (target : String) : String × String × Int :=
  if target = "192.168.1.0/24" then ("1.2.3.4\n", "", 0)
  else ("", "invalid CIDR address: " ++ target, 2)

/-- An invocation with the given positional arguments and no flags. -/
def invocation (positional : List String) : Process :=
  { osArgs := "free_addresses" :: positional
    flagArgs := positional
    subprocessConfig :=
      { TextLogging := true, JournalLogging := true, StdoutLogging := false,
        ForcedHostID := "", DryRunConfig := { DryRunEnabled := false, ForcedHostname := "" } }
    GetFreeAddresses := sampleProbe }

end FreeAddresses

/-! ## Sample machines -/

namespace util

/-- A machine on which every query comes back empty and without error. -/
def quietOS : OS where
  execute := fun _ _ => ("", "", 0)
  executePrivileged := fun _ _ => ("", "", 0)
  readFile := fun _ => (Slice.items [], none)
  stat := fun _ => (none, none)
  hostname := ("", none)
  interfaces := (Slice.items [], none)
  readDir := fun _ => (Slice.items [], none)
  entryInfo := fun e => .found { Name := e.Name, Size := 0, IsDir := e.IsDir }
  abs := fun p => (p, none)
  evalSymlinks := fun p => (p, none)
  ghwBlock := fun _ => (none, none)
  ghwProduct := fun _ => (none, none)
  ghwGPU := fun _ => (none, none)
  ghwMemory := fun _ => (none, none)
  ghwChassis := fun _ => (none, none)
  ghwPCI := fun _ => (none, none)

/-- The loopback interface. -/
def lo : net.Interface :=
  { Index := 1, MTU := 65536, Name := "lo", HardwareAddr := [], Flags := 5 }

/-- An ethernet interface. -/
def eth0 : net.Interface :=
  { Index := 2, MTU := 1500, Name := "eth0", HardwareAddr := [82, 84, 0, 18, 52, 86], Flags := 19 }

/-- A machine named `node-7` with two interfaces and a directory `/sys/block`
whose entry `sdb` vanishes before its info is read. -/
def sampleOS : OS :=
  { quietOS with
    hostname := ("node-7", none)
    interfaces := (Slice.items [lo, eth0], none)
    readDir := fun dir =>
      if dir = "/sys/block" then
        (Slice.items [{ Name := "sda", IsDir := true }, { Name := "sdb", IsDir := true }],
          some { msg := "readdirent /sys/block: input/output error" })
      else (Slice.nil, some { msg := "open " ++ dir ++ ": no such file or directory" })
    entryInfo := fun e =>
      if e.Name = "sdb" then .failed { msg := "lstat /sys/block/sdb: no such file or directory" }
      else .found { Name := e.Name, Size := 0, IsDir := e.IsDir } }

/-- A machine whose hostname query and interface enumeration both fail. -/
def brokenOS : OS :=
  { quietOS with
    hostname := ("", some { msg := "hostname: permission denied" })
    interfaces := (Slice.nil, some { msg := "route ip+net: netlinkrib: too many open files" }) }

/-! ## Observations on runs -/

/-- The chroot in effect in each inventory query of a call log, in order. -/
def chrootsQueried (calls : List Call) : List (Option String) :=
  calls.filterMap fun c => c.ghwOpts.map ghw.chrootInEffect

/-- The descriptors held by a list of wrappers, the back-references left out. -/
def descriptors : Outcome (Slice NetworkInterface × Option GoError) →
    Outcome (List net.Interface × Bool × Option GoError)
  | .ret (ws, err) => .ret (ws.toList.map (fun w => w.netInterface), ws.isNil, err)
  | .panic msg => .panic msg

/-- Two runs returned the same thing and put the same questions. -/
def sameResult {α : Type} (a b : Run α) : Prop :=
  a.outcome = b.outcome ∧ a.calls = b.calls

/-! ## The two loops -/

/-- The loop of `Interfaces` appends one wrapper per descriptor, in order. -/
theorem Interfaces_loop (d : Dependencies) (ins : List net.Interface)
    (acc : List NetworkInterface) :
    ins.foldl (fun ret i => ret.append { netInterface := i, dependencies := d })
        (Slice.items acc) =
      Slice.items (acc ++ ins.map fun i => { netInterface := i, dependencies := d }) := by
  induction ins generalizing acc with
  | nil => simp
  | cons i rest ih =>
    rw [List.foldl_cons]
    show List.foldl _ (Slice.items (acc ++ [_])) rest = _
    rw [ih]
    simp

/-- Closed form of `Interfaces` when the enumeration succeeds. -/
theorem Interfaces_ok (d : Dependencies) (sys : OS) (L : Slice net.Interface)
    (h : sys.interfaces = (L, none)) :
    Interfaces d sys =
      { outcome := .ret (Slice.items (L.toList.map fun i =>
          { netInterface := i, dependencies := d }), none),
        calls := [.netInterfaces], self := d } := by
  simp [Interfaces, h, Interfaces_loop]

/-- Closed form of `Interfaces` when the enumeration fails. -/
theorem Interfaces_err (d : Dependencies) (sys : OS) (L : Slice net.Interface)
    (e : GoError) (h : sys.interfaces = (L, some e)) :
    Interfaces d sys =
      { outcome := .ret (Slice.nil, some e), calls := [.netInterfaces], self := d } := by
  simp [Interfaces, h]

/-- The lookups made by the loop of `ReadDir`: one per entry, in order. -/
theorem ReadDir_loop_calls (sys : OS) (es : List os.DirEntry) (st : ReadDirLoop) :
    (es.foldl (ReadDirLoop.step sys) st).calls = st.calls ++ es.map Call.entryInfo := by
  induction es generalizing st with
  | nil => simp
  | cons e rest ih => simp [ih, ReadDirLoop.step]

/-- The values gathered by the loop of `ReadDir`: one per entry, in order. -/
theorem ReadDir_loop_toList (sys : OS) (es : List os.DirEntry) (st : ReadDirLoop) :
    (es.foldl (ReadDirLoop.step sys) st).filesInfo.toList =
      st.filesInfo.toList ++ es.map fun e => (sys.entryInfo e).info := by
  induction es generalizing st with
  | nil => simp
  | cons e rest ih =>
    rw [List.foldl_cons, ih]
    show (st.filesInfo.toList ++ [_]) ++ _ = _
    simp

end util

/-! ## Hostname -/

namespace util

open config

/-- C1: on a layer built by `NewDependencies` from a dry-run configuration that is
enabled, `Hostname` returns the forced hostname `h` (the empty one too) with a nil
error, whatever the OS would answer, and puts no question to the OS. -/
theorem Hostname_dry_run_forced (h r : String) (sys : OS) :
    (Hostname (NewDependencies (some { DryRunEnabled := true, ForcedHostname := h }) r)
        sys).outcome = .ret (h, none) ∧
    (Hostname (NewDependencies (some { DryRunEnabled := true, ForcedHostname := h }) r)
        sys).calls = [] ∧
    Call.osHostname ∉
      (Hostname (NewDependencies (some { DryRunEnabled := true, ForcedHostname := h }) r)
        sys).calls := by
  simp [Hostname, NewDependencies]

/-- C2: on a layer built by `NewDependencies` from a dry-run configuration that is
not enabled, whatever its forced hostname, `Hostname` asks the OS once and returns
the pair the OS hostname query returned: the same name, the same error. -/
theorem Hostname_dry_run_disabled (h r : String) (sys : OS) :
    (Hostname (NewDependencies (some { DryRunEnabled := false, ForcedHostname := h }) r)
        sys).outcome = .ret sys.hostname ∧
    (Hostname (NewDependencies (some { DryRunEnabled := false, ForcedHostname := h }) r)
        sys).calls = [.osHostname] := by
  simp [Hostname, NewDependencies]

/-- C8, as stated, fails: on the layer built from a nil dry-run configuration
`Hostname` panics and returns nothing. -/
theorem Hostname_nil_config_panics :
    (Hostname (NewDependencies none "") sampleOS).outcome = .panic nilDereference ∧
    ¬ ∃ v, (Hostname (NewDependencies none "") sampleOS).outcome = .ret v := by
  simp [Hostname, NewDependencies]

/-- C8, amended: on every layer built by `NewDependencies` from a dry-run
configuration that is present, `Hostname` returns a hostname string together with
an error value and does not panic; on a layer built from a nil configuration it
panics on the nil pointer. -/
theorem Hostname_returns_iff_config_present (c : Option DryRunConfig) (r : String) (sys : OS) :
    ((∃ name err, (Hostname (NewDependencies c r) sys).outcome = .ret (name, err)) ↔
      c.isSome = true) ∧
    ((Hostname (NewDependencies c r) sys).outcome = .panic nilDereference ↔ c = none) := by
  cases c with
  | none => simp [Hostname, NewDependencies]
  | some cfg =>
    cases hb : cfg.DryRunEnabled
    · simp only [Hostname, NewDependencies, hb]
      exact ⟨⟨fun _ => rfl, fun _ => ⟨sys.hostname.1, sys.hostname.2, rfl⟩⟩, by simp⟩
    · simp [Hostname, NewDependencies, hb]

/-! ## Construction -/

/-- C7: `NewDependencies c r` is the layer holding exactly `r` and `c`; it is a
function of its two inputs alone and asks nothing of the machine.
`GetGhwChrootRoot` on it returns `r` (so the empty string for an empty `r`), asks
nothing either and leaves the layer as built. -/
theorem NewDependencies_stores_inputs (c : Option DryRunConfig) (r : String) (sys : OS) :
    NewDependencies c r = { GhwChrootRoot := r, dryRunConfig := c } ∧
    (NewDependencies c r).dryRunConfig = c ∧
    (NewDependencies c r).GhwChrootRoot = r ∧
    GetGhwChrootRoot (NewDependencies c r) sys =
      { outcome := .ret r, calls := [], self := NewDependencies c r } ∧
    (GetGhwChrootRoot (NewDependencies c "") sys).outcome = .ret "" :=
  ⟨rfl, rfl, rfl, rfl, rfl⟩

/-! ## Hardware queries -/

/-- C3, as stated, fails: a layer built with the chroot root `/mnt/sysroot`, asked
for the block devices with no option, queries the backend with no option at all,
so under the backend's default root and not under `/mnt/sysroot`. -/
theorem Block_not_under_layer_chroot :
    (NewDependencies (some ⟨false, ""⟩) "/mnt/sysroot").GhwChrootRoot ≠ "" ∧
    (Block (NewDependencies (some ⟨false, ""⟩) "/mnt/sysroot") [] sampleOS).calls =
      [.ghwBlock []] ∧
    chrootsQueried (Block (NewDependencies (some ⟨false, ""⟩) "/mnt/sysroot") []
      sampleOS).calls = [none] ∧
    chrootsQueried (Block (NewDependencies (some ⟨false, ""⟩) "/mnt/sysroot") []
      sampleOS).calls ≠ [some "/mnt/sysroot"] := by
  decide

/-- The chroot in effect for an option list that ends with `WithChroot r`. -/
theorem chrootInEffect_append_WithChroot (opts : List ghw.WithOption) (r : String) :
    ghw.chrootInEffect (opts ++ [ghw.WithChroot r]) = some r := by
  induction opts with
  | nil => rfl
  | cons o rest ih => simp [ghw.chrootInEffect, ih]

/-- C3, amended: on every layer built by `NewDependencies`, whatever its chroot
root `r`, each of `Block`, `Product`, `GPU`, `Memory`, `Chassis` and `PCI` puts one
query to the inventory backend, hands it the caller's option list unchanged and
returns its answer; the chroot in effect is the one `opts` names (the backend's
default when it names none), and it is `r` when the caller ends `opts` with
`WithChroot` of what `GetGhwChrootRoot` returns. -/
theorem hardware_queries_forward_opts (c : Option DryRunConfig) (r : String)
    (opts : List ghw.WithOption) (sys : OS) :
    (Block (NewDependencies c r) opts sys =
        { outcome := .ret (sys.ghwBlock opts), calls := [.ghwBlock opts],
          self := NewDependencies c r } ∧
      Product (NewDependencies c r) opts sys =
        { outcome := .ret (sys.ghwProduct opts), calls := [.ghwProduct opts],
          self := NewDependencies c r } ∧
      GPU (NewDependencies c r) opts sys =
        { outcome := .ret (sys.ghwGPU opts), calls := [.ghwGPU opts],
          self := NewDependencies c r } ∧
      Memory (NewDependencies c r) opts sys =
        { outcome := .ret (sys.ghwMemory opts), calls := [.ghwMemory opts],
          self := NewDependencies c r } ∧
      Chassis (NewDependencies c r) opts sys =
        { outcome := .ret (sys.ghwChassis opts), calls := [.ghwChassis opts],
          self := NewDependencies c r } ∧
      PCI (NewDependencies c r) opts sys =
        { outcome := .ret (sys.ghwPCI opts), calls := [.ghwPCI opts],
          self := NewDependencies c r }) ∧
    (chrootsQueried (Block (NewDependencies c r) opts sys).calls = [ghw.chrootInEffect opts] ∧
      chrootsQueried (Product (NewDependencies c r) opts sys).calls =
        [ghw.chrootInEffect opts] ∧
      chrootsQueried (GPU (NewDependencies c r) opts sys).calls = [ghw.chrootInEffect opts] ∧
      chrootsQueried (Memory (NewDependencies c r) opts sys).calls =
        [ghw.chrootInEffect opts] ∧
      chrootsQueried (Chassis (NewDependencies c r) opts sys).calls =
        [ghw.chrootInEffect opts] ∧
      chrootsQueried (PCI (NewDependencies c r) opts sys).calls = [ghw.chrootInEffect opts]) ∧
    (GetGhwChrootRoot (NewDependencies c r) sys).outcome = .ret r ∧
    chrootsQueried (Block (NewDependencies c r) (opts ++ [ghw.WithChroot r]) sys).calls =
      [some r] := by
  refine ⟨⟨rfl, rfl, rfl, rfl, rfl, rfl⟩, ⟨rfl, rfl, rfl, rfl, rfl, rfl⟩, rfl, ?_⟩
  show [ghw.chrootInEffect (opts ++ [ghw.WithChroot r])] = [some r]
  rw [chrootInEffect_append_WithChroot]

end util

/-! ## Interfaces and ReadDir -/

namespace util

open config

/-- C9: when the OS enumeration returns the list `L` with a nil error,
`Interfaces` returns a nil error and a non-nil list of `len(L)` wrappers whose
`i`-th holds `L[i]` and the layer `d` it was called on, so the names are those of
`L` in the order of `L`; when the enumeration returns the error `e`, `Interfaces`
returns the nil list and `e`. Either way the OS is asked once and `d` is left as
it was. -/
theorem Interfaces_wraps_enumeration (d : Dependencies) (sys : OS)
    (L : Slice net.Interface) (err : Option GoError) (h : sys.interfaces = (L, err)) :
    (err = none →
      ∃ ws : List NetworkInterface,
        (Interfaces d sys).outcome = .ret (Slice.items ws, none) ∧
        (Slice.items ws).isNil = false ∧
        ws.length = L.len ∧
        (∀ i : Nat, ws[i]? = (L.toList[i]?).map fun x => NetworkInterface.mk x d) ∧
        (∀ w ∈ ws, w.dependencies = d) ∧
        ws.map (fun w => w.netInterface.Name) = L.toList.map fun x => x.Name) ∧
    (∀ e, err = some e → (Interfaces d sys).outcome = .ret (Slice.nil, some e)) ∧
    (Interfaces d sys).calls = [.netInterfaces] ∧
    (Interfaces d sys).self = d := by
  refine ⟨?_, ?_, ?_, ?_⟩
  · intro he
    subst he
    refine ⟨L.toList.map fun x => NetworkInterface.mk x d, ?_, rfl, ?_, ?_, ?_, ?_⟩
    · rw [Interfaces_ok d sys L h]
    · simp [Slice.len]
    · intro i
      simp
    · intro w hw
      obtain ⟨x, _, rfl⟩ := List.mem_map.mp hw
      rfl
    · simp [Function.comp_def]
  · intro e he
    subst he
    rw [Interfaces_err d sys L e h]
  · cases err with
    | none => rw [Interfaces_ok d sys L h]
    | some e => rw [Interfaces_err d sys L e h]
  · cases err with
    | none => rw [Interfaces_ok d sys L h]
    | some e => rw [Interfaces_err d sys L e h]

/-- C9 at work: on a machine with `lo` and `eth0` the two wrappers come back in
that order, each pointing at the layer asked; on a machine whose enumeration
fails, the nil list comes back with the error of the enumeration. -/
theorem Interfaces_wraps_enumeration_witness :
    sampleOS.interfaces = (Slice.items [lo, eth0], none) ∧
    (∃ ws : List NetworkInterface,
      (Interfaces (NewDependencies (some ⟨true, "fake"⟩) "") sampleOS).outcome =
        .ret (Slice.items ws, none) ∧
      ws.map (fun w => w.netInterface.Name) = ["lo", "eth0"] ∧
      ∀ w ∈ ws, w.dependencies = NewDependencies (some ⟨true, "fake"⟩) "") ∧
    (Interfaces (NewDependencies (some ⟨true, "fake"⟩) "") brokenOS).outcome =
      .ret (Slice.nil, some { msg := "route ip+net: netlinkrib: too many open files" }) :=
  ⟨rfl,
    (fun ⟨ws, hret, _, _, _, hback, hnames⟩ => ⟨ws, hret, hnames, hback⟩)
      ((Interfaces_wraps_enumeration (NewDependencies (some ⟨true, "fake"⟩) "") sampleOS
        (Slice.items [lo, eth0]) none rfl).1 rfl),
    (Interfaces_wraps_enumeration (NewDependencies (some ⟨true, "fake"⟩) "") brokenOS
      Slice.nil (some { msg := "route ip+net: netlinkrib: too many open files" }) rfl).2.1
      _ rfl⟩

/-- C10: when the OS directory read returns a non-nil list of entries and the
error value `err`, `ReadDir` returns `err` unchanged and a list with one value per
entry, in order: the entry's file info, or nil when its lookup failed (that
failure is dropped); when the OS returns the nil list, `ReadDir` returns the nil
list and `err`. The layer is left as it was. -/
theorem ReadDir_lists_infos (d : Dependencies) (dirname : String) (sys : OS)
    (entries : Slice os.DirEntry) (err : Option GoError)
    (h : sys.readDir dirname = (entries, err)) :
    (∀ es, entries = Slice.items es →
      ∃ infos : Slice (Option os.FileInfo),
        (ReadDir d dirname sys).outcome = .ret (infos, err) ∧
        infos.len = es.length ∧
        infos.toList = es.map (fun e => (sys.entryInfo e).info) ∧
        (∀ (i : Nat) e fi, es[i]? = some e → sys.entryInfo e = .found fi →
          infos.toList[i]? = some (some fi)) ∧
        (∀ (i : Nat) e x, es[i]? = some e → sys.entryInfo e = .failed x →
          infos.toList[i]? = some none) ∧
        (ReadDir d dirname sys).calls = .osReadDir dirname :: es.map Call.entryInfo) ∧
    (entries = Slice.nil →
      (ReadDir d dirname sys).outcome = .ret (Slice.nil, err) ∧
      (ReadDir d dirname sys).calls = [.osReadDir dirname]) ∧
    (ReadDir d dirname sys).self = d := by
  refine ⟨?_, ?_, ?_⟩
  · intro es hes
    subst hes
    have hl : (es.foldl (ReadDirLoop.step sys)
        { filesInfo := Slice.nil, calls := [.osReadDir dirname] }).filesInfo.toList =
        es.map (fun e => (sys.entryInfo e).info) := by
      rw [ReadDir_loop_toList]
      rfl
    have hc := ReadDir_loop_calls sys es { filesInfo := Slice.nil, calls := [.osReadDir dirname] }
    refine ⟨(es.foldl (ReadDirLoop.step sys)
      { filesInfo := Slice.nil, calls := [.osReadDir dirname] }).filesInfo, ?_, ?_, hl, ?_, ?_, ?_⟩
    · simp [ReadDir, h]
    · simp [Slice.len, hl]
    · intro i e fi hi hf
      simp [hl, hi, hf, os.InfoLookup.info]
    · intro i e x hi hf
      simp [hl, hi, hf, os.InfoLookup.info]
    · simp [ReadDir, h, hc]
  · intro hn
    subst hn
    simp [ReadDir, h]
  · cases entries <;> simp [ReadDir, h]

/-- C10 at work: `/sys/block` is read with an error after two entries, and the
info of `sdb` cannot be had; both entries are returned, the second as nil, next to
the error of the read. -/
theorem ReadDir_lists_infos_witness :
    sampleOS.readDir "/sys/block" =
      (Slice.items [{ Name := "sda", IsDir := true }, { Name := "sdb", IsDir := true }],
        some { msg := "readdirent /sys/block: input/output error" }) ∧
    (ReadDir (NewDependencies (some ⟨false, ""⟩) "") "/sys/block" sampleOS).self =
      NewDependencies (some ⟨false, ""⟩) "" ∧
    (ReadDir (NewDependencies (some ⟨false, ""⟩) "") "/sys/block" sampleOS).outcome =
      .ret (Slice.items [some { Name := "sda", Size := 0, IsDir := true }, none],
        some { msg := "readdirent /sys/block: input/output error" }) :=
  ⟨by decide,
    (ReadDir_lists_infos (NewDependencies (some ⟨false, ""⟩) "") "/sys/block" sampleOS
      (Slice.items [{ Name := "sda", IsDir := true }, { Name := "sdb", IsDir := true }])
      (some { msg := "readdirent /sys/block: input/output error" }) (by decide)).2.2,
    by decide⟩

end util

/-! ## Dry-run and the other capabilities -/

namespace util

open config

/-- C6, as stated, fails: two layers with the same chroot root, one with dry-run
off and one with dry-run on, return different lists from `Interfaces` on the same
machine, since every wrapper holds the layer it came from. -/
theorem Interfaces_differ_with_dry_run :
    (NewDependencies (some ⟨false, ""⟩) "").GhwChrootRoot =
      (NewDependencies (some ⟨true, "fake"⟩) "").GhwChrootRoot ∧
    (Interfaces (NewDependencies (some ⟨false, ""⟩) "") sampleOS).outcome ≠
      (Interfaces (NewDependencies (some ⟨true, "fake"⟩) "") sampleOS).outcome := by
  decide

/-- C6, amended: for two layers with the same chroot root and any two dry-run
configurations, the same inputs and the same machine, every method other than
`Hostname` and `Interfaces` returns the same result and puts the same questions;
`Interfaces` puts the same question and returns the same error and the same
descriptors in the same order, each wrapper pointing back to the layer it was
obtained from. -/
theorem dry_run_alters_only_Hostname (c₁ c₂ : Option DryRunConfig) (r : String) (sys : OS)
    (command : String) (args : List String) (fname dirname path : String)
    (opts : List ghw.WithOption) :
    sameResult (Execute (NewDependencies c₁ r) command args sys)
      (Execute (NewDependencies c₂ r) command args sys) ∧
    sameResult (ExecutePrivileged (NewDependencies c₁ r) command args sys)
      (ExecutePrivileged (NewDependencies c₂ r) command args sys) ∧
    sameResult (ReadFile (NewDependencies c₁ r) fname sys)
      (ReadFile (NewDependencies c₂ r) fname sys) ∧
    sameResult (Stat (NewDependencies c₁ r) fname sys)
      (Stat (NewDependencies c₂ r) fname sys) ∧
    sameResult (ReadDir (NewDependencies c₁ r) dirname sys)
      (ReadDir (NewDependencies c₂ r) dirname sys) ∧
    sameResult (Abs (NewDependencies c₁ r) path sys)
      (Abs (NewDependencies c₂ r) path sys) ∧
    sameResult (EvalSymlinks (NewDependencies c₁ r) path sys)
      (EvalSymlinks (NewDependencies c₂ r) path sys) ∧
    sameResult (Block (NewDependencies c₁ r) opts sys)
      (Block (NewDependencies c₂ r) opts sys) ∧
    sameResult (Product (NewDependencies c₁ r) opts sys)
      (Product (NewDependencies c₂ r) opts sys) ∧
    sameResult (GPU (NewDependencies c₁ r) opts sys)
      (GPU (NewDependencies c₂ r) opts sys) ∧
    sameResult (Memory (NewDependencies c₁ r) opts sys)
      (Memory (NewDependencies c₂ r) opts sys) ∧
    sameResult (Chassis (NewDependencies c₁ r) opts sys)
      (Chassis (NewDependencies c₂ r) opts sys) ∧
    sameResult (PCI (NewDependencies c₁ r) opts sys)
      (PCI (NewDependencies c₂ r) opts sys) ∧
    sameResult (GetGhwChrootRoot (NewDependencies c₁ r) sys)
      (GetGhwChrootRoot (NewDependencies c₂ r) sys) ∧
    (Interfaces (NewDependencies c₁ r) sys).calls =
      (Interfaces (NewDependencies c₂ r) sys).calls ∧
    descriptors (Interfaces (NewDependencies c₁ r) sys).outcome =
      descriptors (Interfaces (NewDependencies c₂ r) sys).outcome ∧
    (∀ ws err, (Interfaces (NewDependencies c₁ r) sys).outcome = .ret (ws, err) →
      ∀ w ∈ ws.toList, w.dependencies = NewDependencies c₁ r) := by
  have hrd : sameResult (ReadDir (NewDependencies c₁ r) dirname sys)
      (ReadDir (NewDependencies c₂ r) dirname sys) := by
    rcases h : sys.readDir dirname with ⟨entries, err⟩
    cases entries <;> simp [sameResult, ReadDir, h]
  refine ⟨⟨rfl, rfl⟩, ⟨rfl, rfl⟩, ⟨rfl, rfl⟩, ⟨rfl, rfl⟩, hrd, ⟨rfl, rfl⟩, ⟨rfl, rfl⟩,
    ⟨rfl, rfl⟩, ⟨rfl, rfl⟩, ⟨rfl, rfl⟩, ⟨rfl, rfl⟩, ⟨rfl, rfl⟩, ⟨rfl, rfl⟩, ⟨rfl, rfl⟩, ?_⟩
  rcases h : sys.interfaces with ⟨L, err⟩
  cases err with
  | none =>
    rw [Interfaces_ok _ sys L h, Interfaces_ok _ sys L h]
    refine ⟨rfl, ?_, ?_⟩
    · simp [descriptors, Slice.toList, Slice.isNil, Function.comp_def]
    · intro ws err hret w hw
      simp only [Outcome.ret.injEq, Prod.mk.injEq] at hret
      rw [← hret.1] at hw
      obtain ⟨x, _, rfl⟩ := List.mem_map.mp hw
      rfl
  | some e =>
    rw [Interfaces_err _ sys L e h, Interfaces_err _ sys L e h]
    refine ⟨rfl, rfl, ?_⟩
    intro ws err hret w hw
    simp only [Outcome.ret.injEq, Prod.mk.injEq] at hret
    rw [← hret.1] at hw
    simp [Slice.toList] at hw

end util

/-! ## The entry point -/

namespace FreeAddresses

/-- C4: invoked with exactly one positional argument `a`, for whatever triple the
probe returns for `a`, the process calls the probe once, with `a`, writes the
probe's stdout to standard output and its stderr to standard error, each in one
write and nothing else, logs no warning, and exits with the probe's exit code. -/
theorem main_relays_probe (p : Process) (a out err : String) (code : Int)
    (hargs : p.flagArgs = [a]) (hprobe : p.GetFreeAddresses a = (out, err, code)) :
    main p =
      { events := setup p ++ [.getFreeAddresses a, .writeStdout out, .writeStderr err],
        exitCode := code } ∧
    probeCalls (main p).events = [a] ∧
    stdoutWrites (main p).events = [out] ∧
    stderrWrites (main p).events = [err] ∧
    stdoutOf (main p) = out ∧
    stderrOf (main p) = err ∧
    warnings (main p).events = [] ∧
    (main p).exitCode = code := by
  have hmain : main p =
      { events := setup p ++ [.getFreeAddresses a, .writeStdout out, .writeStderr err],
        exitCode := code } := by
    simp [main, NArg, Arg, hargs, hprobe]
  rw [hmain]
  simp [setup, probeCalls, stdoutWrites, stderrWrites, warnings, stdoutOf, stderrOf,
    String.join]

/-- C4 at work, the scenario of the specification: the probe answers
`1.2.3.4` on stdout, nothing on stderr and exit code 0. -/
theorem main_relays_probe_witness :
    (invocation ["192.168.1.0/24"]).flagArgs = ["192.168.1.0/24"] ∧
    (invocation ["192.168.1.0/24"]).GetFreeAddresses "192.168.1.0/24" = ("1.2.3.4\n", "", 0) ∧
    stdoutOf (main (invocation ["192.168.1.0/24"])) = "1.2.3.4\n" ∧
    stderrOf (main (invocation ["192.168.1.0/24"])) = "" ∧
    (main (invocation ["192.168.1.0/24"])).exitCode = 0 :=
  have h := main_relays_probe (invocation ["192.168.1.0/24"]) "192.168.1.0/24" "1.2.3.4\n" "" 0
    rfl (by decide)
  ⟨rfl, by decide, h.2.2.2.2.1, h.2.2.2.2.2.1, h.2.2.2.2.2.2.2⟩

/-- C5: invoked with any number of positional arguments other than one, whatever
they are, the process logs one warning, never calls the probe, writes nothing to
standard output (nor to standard error) and exits with the fixed status -1. -/
theorem main_usage_error (p : Process) (h : p.flagArgs.length ≠ 1) :
    main p = { events := setup p ++ [.logWarnf (usageWarning p)], exitCode := -1 } ∧
    (main p).exitCode = -1 ∧
    (main p).exitCode ≠ 0 ∧
    probeCalls (main p).events = [] ∧
    stdoutWrites (main p).events = [] ∧
    stdoutOf (main p) = "" ∧
    stderrWrites (main p).events = [] ∧
    warnings (main p).events = [usageWarning p] := by
  have hmain : main p = { events := setup p ++ [.logWarnf (usageWarning p)], exitCode := -1 } := by
    simp [main, NArg, h]
  rw [hmain]
  simp [setup, probeCalls, stdoutWrites, stderrWrites, warnings, stdoutOf, String.join]

/-- C5 at work: with no argument and with two arguments the exit status is the
same -1, the probe is not called and the warning tells how many were received. -/
theorem main_usage_error_witness :
    (invocation []).flagArgs.length ≠ 1 ∧
    (invocation ["10.0.0.0/8", "extra"]).flagArgs.length ≠ 1 ∧
    (main (invocation [])).exitCode = -1 ∧
    (main (invocation ["10.0.0.0/8", "extra"])).exitCode = -1 ∧
    probeCalls (main (invocation ["10.0.0.0/8", "extra"])).events = [] ∧
    warnings (main (invocation [])).events =
      ["Expecting exactly single argument to free_addresses. Received 0"] :=
  ⟨by decide, by decide,
    (main_usage_error (invocation []) (by decide)).2.1,
    (main_usage_error (invocation ["10.0.0.0/8", "extra"]) (by decide)).2.1,
    (main_usage_error (invocation ["10.0.0.0/8", "extra"]) (by decide)).2.2.2.1,
    by decide⟩

end FreeAddresses
